import Mathlib

/-!
Verification of the Fishbowl Data Transformer core (src/app.py).

The program reconciles a NetSuite export with two Asana board exports,
drops rows matched to an "automated cards" section, classifies each order
as UV / LASER / BLANK, and rewrites the Item SKU with a category prefix.

Rows of the tabular inputs are modelled as association lists from column
name to text value (Python dicts of strings: keys unique, insertion
ordered; lookup returns the first matching pair).  All string helpers
mirror the Python string methods used by the code (strip / lower / upper
on ASCII data, substring containment, startswith).
-/

/-- Column-name/value row, as produced by `row.to_dict()` in the code. -/
abbrev Row := List (String × String)

/-- Whitespace for Python `str.strip` / `\s` (ASCII range). -/
def isPySpace (c : Char) : Bool :=
  c = ' ' || c = '\t' || c = '\n' || c = '\r' || c = Char.ofNat 11 || c = Char.ofNat 12

/-- Python `str.strip()` on a character list. -/
def pyStripL (l : List Char) : List Char :=
  ((l.dropWhile isPySpace).reverse.dropWhile isPySpace).reverse

/-- Python `str.strip()`. -/
def pyStripStr (s : String) : String := String.mk (pyStripL s.data)

/-- Python `str.lower()` (ASCII data). -/
def pyLowerStr (s : String) : String := String.mk (s.data.map Char.toLower)

/-- Python `str.upper()` (ASCII data). -/
def pyUpperStr (s : String) : String := String.mk (s.data.map Char.toUpper)

/-- Replace each maximal whitespace run by a single space
(`re.sub(r"\s+", " ", _)`); the Bool records whether the previous
character was part of a run. -/
def collapseWSAux : List Char → Bool → List Char
  | [], _ => []
  | c :: cs, prevSpace =>
    if isPySpace c then
      if prevSpace then collapseWSAux cs true else ' ' :: collapseWSAux cs true
    else c :: collapseWSAux cs false

/-- `normalize_col` of app.py: `re.sub(r"\s+", " ", s.strip()).lower()`. -/
def normalize_col (s : String) : String :=
  String.mk ((collapseWSAux (pyStripL s.data) false).map Char.toLower)

/-- `pat` is a character-wise initial segment of `s` (Python `startswith`). -/
def listStartsWith : List Char → List Char → Bool
  | [], _ => true
  | _ :: _, [] => false
  | a :: as, b :: bs => a = b && listStartsWith as bs

/-- Python `s.startswith(pat)`. -/
def strStartsWith (s pat : String) : Bool := listStartsWith pat.data s.data

/-- `pat` occurs as a contiguous sublist of `l` (Python `pat in s`). -/
def listContainsSub : List Char → List Char → Bool
  | [], pat => pat.isEmpty
  | a :: rest, pat => listStartsWith pat (a :: rest) || listContainsSub rest pat

/-- Python `pat in s` substring test. -/
def strContainsSub (s pat : String) : Bool := listContainsSub s.data pat.data

/-- Python `row.get(k)`: value of the first pair whose key is `k`. -/
def rget (r : Row) (k : String) : Option String :=
  (r.find? (fun p => p.1 == k)).map (fun p => p.2)

/-- Python `row.get(k, d)`. -/
def rgetD (r : Row) (k d : String) : String := (rget r k).getD d

/-- Python `row[k] = v` on a dict: overwrite in place if present, else
append at the end (insertion order preserved). -/
def rset (r : Row) (k v : String) : Row :=
  if (r.find? (fun p => p.1 == k)).isSome then
    r.map (fun p => if p.1 == k then (k, v) else p)
  else r ++ [(k, v)]

/-- The accepted header spellings for the section/status column, as the
set literal `{"section/column", "section", "column"}` in app.py. -/
def sectionNames : List String := ["section/column", "section", "column"]

/-- `dedupe_prefix` of app.py: strip, return unchanged when empty or when
the value already starts with the prefix case-insensitively, else
prepend. -/
def dedupe_prefix (sku pfx : String) : String :=
  let s := pyStripStr sku
  if s == "" then s
  else if strStartsWith (pyUpperStr s) (pyUpperStr pfx) then s
  else pfx ++ s

/-- The Blank test of `infer_order_type`: some section-like column of the
Custom/Laser board row has value "blank" after strip + lower (the
`for c in cand_cols` loop, folded to an existence test over the dict's
unique keys). -/
def custom_blank_signal (row : Row) : Bool :=
  row.any (fun p =>
    sectionNames.contains (normalize_col p.1) &&
    (pyLowerStr (pyStripStr p.2) == "blank"))

/-- The UV test of `infer_order_type`: some "Color Print" column of the
UV board row contains "uv printer" after strip + lower. -/
def uv_signal (row : Row) : Bool :=
  row.any (fun p =>
    (normalize_col p.1 == "color print") &&
    strContainsSub (pyLowerStr (pyStripStr p.2)) "uv printer")

/-- `infer_order_type` of app.py.  The NetSuite row is accepted but never
inspected; the Custom/Laser board is consulted first for "Blank", then
the UV board for "UV Printer", else "LASER". -/
def infer_order_type (netsuite_row : Row)
    (asana_row_uv asana_row_custom : Option Row) : String :=
  if (match asana_row_custom with
      | some r => custom_blank_signal r
      | none => false) then "BLANK"
  else if (match asana_row_uv with
      | some r => uv_signal r
      | none => false) then "UV"
  else "LASER"

/-- `is_automated_cards` of app.py: some section-like column equals
"automated cards" after strip + lower; `None` is never excluded. -/
def is_automated_cards : Option Row → Bool
  | none => false
  | some r =>
    r.any (fun p =>
      sectionNames.contains (normalize_col p.1) &&
      (pyLowerStr (pyStripStr p.2) == "automated cards"))

/-- `norm_key` of `merge_asana`: `str(s).strip().upper()`. -/
def norm_key (s : String) : String := pyUpperStr (pyStripStr s)

/-- One step of duplicate dropping: keep the first row seen for a join
key (`drop_duplicates("_join_key")` keeps pandas' first occurrence). -/
def add_entry (acc : List (String × Row)) (kr : String × Row) :
    List (String × Row) :=
  if (acc.find? (fun p => p.1 == kr.1)).isSome then acc else acc ++ [kr]

/-- Board lookup built in `merge_asana`: assign `_join_key` to every row,
drop duplicate keys keeping the first, index by the key
(`set_index("_join_key").to_dict(orient="index")`). -/
def build_lookup (rows : List Row) (key : String) : List (String × Row) :=
  ((rows.map (fun r => (norm_key (rgetD r key ""), r))).foldl add_entry [])

/-- `uv_dict.get(k)` / `custom_dict.get(k)`. -/
def dict_get (d : List (String × Row)) (k : String) : Option Row :=
  (d.find? (fun p => p.1 == k)).map (fun p => p.2)

/-- The per-board dict of `merge_asana`: `{}` when the sheet was not
uploaded (or its join-key column is absent), else the built lookup. -/
def board_dict (tbl : Option (List Row)) (key : String) :
    List (String × Row) :=
  match tbl with
  | none => []
  | some rows => build_lookup rows key

/-- Body of the `for _, row in ns_df.iterrows()` loop of `merge_asana`:
compute the join key, look up both boards, drop the row when either
matched board row is "automated cards", otherwise attach
`__ORDER_TYPE`. -/
def merge_row (uv_dict custom_dict : List (String × Row)) (key_ns : String)
    (row : Row) : Option Row :=
  let k := norm_key (rgetD row key_ns "")
  let row1 := rset row "_join_key" k
  let uv_row := dict_get uv_dict k
  let custom_row := dict_get custom_dict k
  if is_automated_cards uv_row || is_automated_cards custom_row then none
  else some (rset row1 "__ORDER_TYPE" (infer_order_type row1 uv_row custom_row))

/-- `merge_asana` of app.py: build both board lookups, then process the
NetSuite rows in order, keeping the surviving ones. -/
def merge_asana (ns : List Row) (asana_uv asana_custom : Option (List Row))
    (key_ns key_asana : String) : List Row :=
  ns.filterMap
    (merge_row (board_dict asana_uv key_asana)
      (board_dict asana_custom key_asana) key_ns)

/-- `rename_sku` of `transform_items`: prefix the Item SKU according to
`__ORDER_TYPE` ("UV" → `UV-`, "LASER" → `L-`, anything else, in
particular "BLANK", unchanged). -/
def rename_sku (row : Row) : String :=
  let sku := rgetD row "Item" ""
  let otype := pyUpperStr (rgetD row "__ORDER_TYPE" "")
  if otype == "UV" then dedupe_prefix sku "UV-"
  else if otype == "LASER" then dedupe_prefix sku "L-"
  else sku

/-! ### Helper lemmas -/

lemma or_of_isSome {α : Type} (o x : Option α) (h : o.isSome = true) :
    o.or x = o := by
  cases o with
  | none => simp at h
  | some a => rfl

lemma find_map_overwrite (r : Row) (k v : String) :
    (r.map (fun p => if p.1 == k then (k, v) else p)).find? (fun p => p.1 == k) =
      (r.find? (fun p => p.1 == k)).map (fun _ => (k, v)) := by
  induction r with
  | nil => rfl
  | cons q rest ih =>
    by_cases hq : (q.1 == k) = true
    · obtain ⟨q1, q2⟩ := q
      have hq' : q1 = k := by simpa using hq
      subst hq'
      simp [List.find?_cons]
    · simp only [List.map_cons, if_neg hq, List.find?_cons]
      have hq' : (q.1 == k) = false := by simpa using hq
      rw [hq']
      exact ih

lemma rget_rset (r : Row) (k v : String) : rget (rset r k v) k = some v := by
  unfold rget rset
  by_cases h : (r.find? (fun p => p.1 == k)).isSome = true
  · rw [if_pos h, find_map_overwrite]
    cases hf : r.find? (fun p => p.1 == k) with
    | none => rw [hf] at h; simp at h
    | some q => rfl
  · rw [if_neg h, List.find?_append]
    cases hf : r.find? (fun p => p.1 == k) with
    | some q => rw [hf] at h; simp at h
    | none => simp [List.find?_cons]

lemma infer_order_type_cases (ns : Row) (uvr customr : Option Row) :
    infer_order_type ns uvr customr = "UV" ∨
      infer_order_type ns uvr customr = "LASER" ∨
      infer_order_type ns uvr customr = "BLANK" := by
  unfold infer_order_type
  split
  · right; right; rfl
  · split
    · left; rfl
    · right; left; rfl

lemma find_foldl_add (l : List (String × Row)) (k : String) :
    ∀ acc : List (String × Row),
      (l.foldl add_entry acc).find? (fun p => p.1 == k) =
        ((acc.find? (fun p => p.1 == k)).or (l.find? (fun p => p.1 == k))) := by
  induction l with
  | nil =>
    intro acc
    rw [List.foldl_nil]
    cases acc.find? (fun p => p.1 == k) <;> rfl
  | cons kr rest ih =>
    intro acc
    rw [List.foldl_cons, ih]
    unfold add_entry
    by_cases hin : (acc.find? (fun p => p.1 == kr.1)).isSome = true
    · rw [if_pos hin]
      by_cases hk : (kr.1 == k) = true
      · have hkk : kr.1 = k := by simpa using hk
        have hsome : (acc.find? (fun p => p.1 == k)).isSome = true := by
          rw [← hkk]; exact hin
        rw [or_of_isSome _ _ hsome, or_of_isSome _ _ hsome]
      · have hk' : (kr.1 == k) = false := by simpa using hk
        rw [List.find?_cons, hk']
    · rw [if_neg hin, List.find?_append, Option.or_assoc]
      rw [List.find?_cons, List.find?_cons]
      by_cases hk : (kr.1 == k) = true
      · rw [hk]
        rfl
      · have hk' : (kr.1 == k) = false := by simpa using hk
        rw [hk']
        rfl

/-- The Prop-level Blank signal of the spec's Secondary-finish board:
some section-like column of the matched Custom/Laser row reads "blank"
after trimming, case-insensitively. -/
def customSignalsBlank : Option Row → Prop
  | none => False
  | some row => ∃ p ∈ row, normalize_col p.1 ∈ sectionNames ∧
      pyLowerStr (pyStripStr p.2) = "blank"

/-- The Prop-level UV signal of the spec's Primary-finish board: some
"Color Print" column of the matched UV row contains "uv printer" after
trimming, case-insensitively. -/
def uvSignalsUV : Option Row → Prop
  | none => False
  | some row => ∃ p ∈ row, normalize_col p.1 = "color print" ∧
      strContainsSub (pyLowerStr (pyStripStr p.2)) "uv printer" = true

lemma custom_blank_signal_iff (row : Row) :
    custom_blank_signal row = true ↔
      ∃ p ∈ row, normalize_col p.1 ∈ sectionNames ∧
        pyLowerStr (pyStripStr p.2) = "blank" := by
  unfold custom_blank_signal
  rw [List.any_eq_true]
  constructor
  · rintro ⟨p, hp, hcond⟩
    rw [Bool.and_eq_true] at hcond
    exact ⟨p, hp, List.elem_iff.mp hcond.1, by simpa using hcond.2⟩
  · rintro ⟨p, hp, h1, h2⟩
    refine ⟨p, hp, ?_⟩
    rw [Bool.and_eq_true]
    exact ⟨List.elem_iff.mpr h1, by simpa using h2⟩

lemma uv_signal_iff (row : Row) :
    uv_signal row = true ↔
      ∃ p ∈ row, normalize_col p.1 = "color print" ∧
        strContainsSub (pyLowerStr (pyStripStr p.2)) "uv printer" = true := by
  unfold uv_signal
  rw [List.any_eq_true]
  constructor
  · rintro ⟨p, hp, hcond⟩
    rw [Bool.and_eq_true] at hcond
    exact ⟨p, hp, by simpa using hcond.1, hcond.2⟩
  · rintro ⟨p, hp, h1, h2⟩
    refine ⟨p, hp, ?_⟩
    rw [Bool.and_eq_true]
    exact ⟨by simpa using h1, h2⟩

lemma customSignalsBlank_iff (r : Option Row) :
    (match r with | some row => custom_blank_signal row | none => false) = true ↔
      customSignalsBlank r := by
  cases r with
  | none => simp [customSignalsBlank]
  | some row =>
    simpa [customSignalsBlank] using custom_blank_signal_iff row

lemma uvSignalsUV_iff (r : Option Row) :
    (match r with | some row => uv_signal row | none => false) = true ↔
      uvSignalsUV r := by
  cases r with
  | none => simp [uvSignalsUV]
  | some row =>
    simpa [uvSignalsUV] using uv_signal_iff row

/-! ### Claim theorems -/

/-- C10: the category inferred for a record is independent of the primary
(NetSuite) record's own field values: for any two primary-record mappings
and any fixed pair of board-record arguments, `infer_order_type` returns
the same category — only the two board records determine the result. -/
theorem C10_classification_independent_of_primary (ns1 ns2 : Row)
    (uvr customr : Option Row) :
    infer_order_type ns1 uvr customr = infer_order_type ns2 uvr customr := rfl

/-- C9: every record produced by `merge_asana` carries a category that is
exactly one of UV, LASER, BLANK; classification never produces any other
value for any combination of board-record inputs. -/
theorem C9_category_closure (ns : List Row) (uvT cT : Option (List Row))
    (kns ka : String) (out : Row) (h : out ∈ merge_asana ns uvT cT kns ka) :
    rget out "__ORDER_TYPE" = some "UV" ∨
      rget out "__ORDER_TYPE" = some "LASER" ∨
      rget out "__ORDER_TYPE" = some "BLANK" := by
  unfold merge_asana at h
  obtain ⟨r, hr, hmr⟩ := List.mem_filterMap.mp h
  simp only [merge_row] at hmr
  split at hmr
  · exact absurd hmr (by simp)
  · rw [Option.some.injEq] at hmr
    subst hmr
    rcases infer_order_type_cases (rset r "_join_key" (norm_key (rgetD r kns "")))
        (dict_get (board_dict uvT ka) (norm_key (rgetD r kns "")))
        (dict_get (board_dict cT ka) (norm_key (rgetD r kns ""))) with h1 | h1 | h1
    · exact Or.inl (by rw [rget_rset, h1])
    · exact Or.inr (Or.inl (by rw [rget_rset, h1]))
    · exact Or.inr (Or.inr (by rw [rget_rset, h1]))

/-- C9 witness: a NetSuite row not matched by any board is emitted with
the default LASER category, one of the three admissible values. -/
theorem C9_category_closure_witness :
    rget [("SONum", "1"), ("_join_key", "1"), ("__ORDER_TYPE", "LASER")]
        "__ORDER_TYPE" = some "UV" ∨
      rget [("SONum", "1"), ("_join_key", "1"), ("__ORDER_TYPE", "LASER")]
        "__ORDER_TYPE" = some "LASER" ∨
      rget [("SONum", "1"), ("_join_key", "1"), ("__ORDER_TYPE", "LASER")]
        "__ORDER_TYPE" = some "BLANK" :=
  C9_category_closure [[("SONum", "1")]] none none "SONum" "Document Number"
    [("SONum", "1"), ("_join_key", "1"), ("__ORDER_TYPE", "LASER")] (by decide)

/-- C8: a workflow record whose section/status field equals "automated
cards" (case-insensitively, trimmed) never contributes to any resolved
order: every record `merge_asana` emits stems from a NetSuite row whose
matched board rows are both non-excluded, and its category was computed
from exactly those non-excluded rows. -/
theorem C8_exclusion_correctness (ns : List Row) (uvT cT : Option (List Row))
    (kns ka : String) (out : Row) (h : out ∈ merge_asana ns uvT cT kns ka) :
    ∃ r ∈ ns,
      is_automated_cards
        (dict_get (board_dict uvT ka) (norm_key (rgetD r kns ""))) = false ∧
      is_automated_cards
        (dict_get (board_dict cT ka) (norm_key (rgetD r kns ""))) = false ∧
      out = rset (rset r "_join_key" (norm_key (rgetD r kns ""))) "__ORDER_TYPE"
        (infer_order_type (rset r "_join_key" (norm_key (rgetD r kns "")))
          (dict_get (board_dict uvT ka) (norm_key (rgetD r kns "")))
          (dict_get (board_dict cT ka) (norm_key (rgetD r kns "")))) := by
  unfold merge_asana at h
  obtain ⟨r, hr, hmr⟩ := List.mem_filterMap.mp h
  simp only [merge_row] at hmr
  split at hmr
  · exact absurd hmr (by simp)
  · rename_i hcond
    rw [Option.some.injEq] at hmr
    simp only [Bool.or_eq_true, not_or, Bool.not_eq_true] at hcond
    exact ⟨r, hr, hcond.1, hcond.2, hmr.symm⟩

/-- C8 witness: a NetSuite row matched by a non-excluded UV board row is
resolved, with both matched board rows non-excluded and the category
computed from them. -/
theorem C8_exclusion_correctness_witness :
    ∃ r ∈ [[("SONum", "1")]],
      is_automated_cards
        (dict_get (board_dict (some [[("Document Number", "1"),
            ("Color Print", "UV Printer")]]) "Document Number")
          (norm_key (rgetD r "SONum" ""))) = false ∧
      is_automated_cards
        (dict_get (board_dict none "Document Number")
          (norm_key (rgetD r "SONum" ""))) = false ∧
      [("SONum", "1"), ("_join_key", "1"), ("__ORDER_TYPE", "UV")] =
        rset (rset r "_join_key" (norm_key (rgetD r "SONum" ""))) "__ORDER_TYPE"
          (infer_order_type (rset r "_join_key" (norm_key (rgetD r "SONum" "")))
            (dict_get (board_dict (some [[("Document Number", "1"),
                ("Color Print", "UV Printer")]]) "Document Number")
              (norm_key (rgetD r "SONum" "")))
            (dict_get (board_dict none "Document Number")
              (norm_key (rgetD r "SONum" "")))) :=
  C8_exclusion_correctness [[("SONum", "1")]]
    (some [[("Document Number", "1"), ("Color Print", "UV Printer")]]) none
    "SONum" "Document Number"
    [("SONum", "1"), ("_join_key", "1"), ("__ORDER_TYPE", "UV")] (by decide)

/-- C1 counterexample: with both boards signalling (UV row's Color Print
contains "UV Printer", Custom row's Section equals "Blank"), the code
returns BLANK, not the UV category the claim's precedence demands. -/
theorem C1_counterexample :
    infer_order_type [] (some [("Color Print", "UV Printer - Roland")])
        (some [("Section", "Blank")]) = "BLANK" ∧
      infer_order_type [] (some [("Color Print", "UV Printer - Roland")])
        (some [("Section", "Blank")]) ≠ "UV" := by decide

/-- C1 (amended): classification checks the Secondary-finish (Custom/
Laser) board's Blank signal first: if some section-like column of that
board's record reads "blank", the category is BLANK; only if that signal
is absent is the Primary-finish (UV) board's Color Print marker checked
for UV; if neither board signals, the category defaults to LASER. -/
theorem C1_amended_blank_checked_first (ns : Row) (uvr customr : Option Row) :
    (customSignalsBlank customr → infer_order_type ns uvr customr = "BLANK") ∧
    (¬ customSignalsBlank customr → uvSignalsUV uvr →
      infer_order_type ns uvr customr = "UV") ∧
    (¬ customSignalsBlank customr → ¬ uvSignalsUV uvr →
      infer_order_type ns uvr customr = "LASER") := by
  unfold infer_order_type
  split_ifs with h1 h2
  · exact ⟨fun _ => rfl,
      fun hn _ => absurd ((customSignalsBlank_iff customr).mp h1) hn,
      fun hn _ => absurd ((customSignalsBlank_iff customr).mp h1) hn⟩
  · exact ⟨fun hc => absurd ((customSignalsBlank_iff customr).mpr hc) h1,
      fun _ _ => rfl,
      fun _ hn => absurd ((uvSignalsUV_iff uvr).mp h2) hn⟩
  · exact ⟨fun hc => absurd ((customSignalsBlank_iff customr).mpr hc) h1,
      fun _ hu => absurd ((uvSignalsUV_iff uvr).mpr hu) h2,
      fun _ _ => rfl⟩

/-- C1 witness: a Custom/Laser row whose Section reads "Blank" forces the
BLANK category even though the UV board also signals. -/
theorem C1_amended_blank_checked_first_witness :
    infer_order_type [] (some [("Color Print", "UV Printer - Roland")])
      (some [("Section", "Blank")]) = "BLANK" :=
  (C1_amended_blank_checked_first [] (some [("Color Print", "UV Printer - Roland")])
      (some [("Section", "Blank")])).1
    ⟨("Section", "Blank"), by decide, by decide, by decide⟩

/-- C2 counterexample: a NetSuite row whose join key ("123") is found in
neither board lookup is not dropped: it is emitted, classified with the
default LASER category. -/
theorem C2_counterexample :
    dict_get (board_dict (some [[("Document Number", "999")]]) "Document Number")
        "123" = none ∧
      merge_asana [[("SONum", "123")]] (some [[("Document Number", "999")]])
        none "SONum" "Document Number" =
        [[("SONum", "123"), ("_join_key", "123"), ("__ORDER_TYPE", "LASER")]] := by
  decide

/-- C2 (amended): a primary record whose normalized join key is found in
neither board lookup is retained, not dropped: `merge_asana` emits it
with the default LASER category (only "automated cards" matches cause a
row to be dropped). -/
theorem C2_amended_unmatched_kept (ns : List Row) (uvT cT : Option (List Row))
    (kns ka : String) (r : Row) (hmem : r ∈ ns)
    (huv : dict_get (board_dict uvT ka) (norm_key (rgetD r kns "")) = none)
    (hc : dict_get (board_dict cT ka) (norm_key (rgetD r kns "")) = none) :
    rset (rset r "_join_key" (norm_key (rgetD r kns ""))) "__ORDER_TYPE" "LASER"
      ∈ merge_asana ns uvT cT kns ka := by
  unfold merge_asana
  refine List.mem_filterMap.mpr ⟨r, hmem, ?_⟩
  simp only [merge_row, huv, hc]
  rfl

/-- C2 witness: the concrete unmatched row of the counterexample is a
member of the output, joined to no board and classified LASER. -/
theorem C2_amended_unmatched_kept_witness :
    rset (rset [("SONum", "123")] "_join_key"
          (norm_key (rgetD [("SONum", "123")] "SONum" ""))) "__ORDER_TYPE" "LASER"
      ∈ merge_asana [[("SONum", "123")]] (some [[("Document Number", "999")]])
          none "SONum" "Document Number" :=
  C2_amended_unmatched_kept [[("SONum", "123")]]
    (some [[("Document Number", "999")]]) none "SONum" "Document Number"
    [("SONum", "123")] (by decide) (by decide) (by decide)

/-- C3 counterexample: two Board-A records share the normalized key "A1";
the first is excluded ("automated cards"), the second is not.  The lookup
keeps the excluded first record, and in consequence the joined NetSuite
row is dropped — the claim's "non-excluded record wins regardless of
order" fails. -/
theorem C3_counterexample :
    dict_get (build_lookup
          [[("Document Number", "A1"), ("Section", "automated cards")],
           [("Document Number", "A1"), ("Section", "Pending")]]
          "Document Number") "A1" =
        some [("Document Number", "A1"), ("Section", "automated cards")] ∧
      merge_asana [[("SONum", "A1")]]
        (some [[("Document Number", "A1"), ("Section", "automated cards")],
               [("Document Number", "A1"), ("Section", "Pending")]])
        none "SONum" "Document Number" = [] := by
  decide

/-- C3 (amended): when several workflow records on the same board
normalize to the same join key, the lookup keeps the first-encountered
record in input order, regardless of the records' exclusion status:
the built lookup at any key is exactly `List.find?` over the input. -/
theorem C3_amended_first_record_wins (rows : List Row) (key k : String) :
    dict_get (build_lookup rows key) k =
      rows.find? (fun r => norm_key (rgetD r key "") == k) := by
  unfold dict_get build_lookup
  rw [find_foldl_add]
  rw [List.find?_nil, Option.none_or, List.find?_map]
  induction rows with
  | nil => rfl
  | cons r rest ih =>
    rw [List.find?_cons, List.find?_cons]
    by_cases hk : (norm_key (rgetD r key "") == k) = true
    · have : ((fun p => p.1 == k) ∘ fun r => (norm_key (rgetD r key ""), r)) r
          = true := by simpa using hk
      rw [this, hk]
      rfl
    · have hk' : (norm_key (rgetD r key "") == k) = false := by simpa using hk
      have : ((fun p => p.1 == k) ∘ fun r => (norm_key (rgetD r key ""), r)) r
          = false := by simpa using hk'
      rw [this, hk']
      exact ih

/-- C4 counterexample: the code performs neither separator-splitting nor
upper-casing: the scenario input "WIDGET : cus12345" under UV yields
"UV-WIDGET : cus12345", not the claimed "UV-CUS12345". -/
theorem C4_counterexample :
    rename_sku [("Item", "WIDGET : cus12345"), ("__ORDER_TYPE", "UV")]
        = "UV-WIDGET : cus12345" ∧
      ("UV-WIDGET : cus12345" : String) ≠ "UV-CUS12345" := by decide

/-- C4 (amended): identifier normalization does not split at ':' and does
not case-fold: for a UV order the output identifier is the UV prefix
prepended to the whitespace-trimmed raw value, whenever the trimmed value
is nonempty and does not already start with the prefix
(case-insensitively). -/
theorem C4_amended_no_split_no_casefold (r : Row) (v : String)
    (hv : rget r "Item" = some v)
    (ht : pyUpperStr (rgetD r "__ORDER_TYPE" "") = "UV")
    (hne : pyStripStr v ≠ "")
    (hpre : strStartsWith (pyUpperStr (pyStripStr v)) "UV-" = false) :
    rename_sku r = "UV-" ++ pyStripStr v := by
  have hv' : rgetD r "Item" "" = v := by unfold rgetD; rw [hv]; rfl
  simp only [rename_sku]
  rw [hv', ht, if_pos (by decide)]
  simp only [ dedupe_prefix]
  have hUV : pyUpperStr "UV-" = "UV-" := by decide
  rw [hUV]
  rw [if_neg (by simpa using hne)]
  rw [if_neg (by simp [hpre])]

/-- C4 witness: the scenario identifier "WIDGET : cus12345" with a UV
classification yields "UV-WIDGET : cus12345". -/
theorem C4_amended_no_split_no_casefold_witness :
    rename_sku [("Item", "WIDGET : cus12345"), ("__ORDER_TYPE", "UV")]
      = "UV-" ++ pyStripStr "WIDGET : cus12345" :=
  C4_amended_no_split_no_casefold
    [("Item", "WIDGET : cus12345"), ("__ORDER_TYPE", "UV")]
    "WIDGET : cus12345" (by decide) (by decide) (by decide) (by decide)

/-- C5 counterexample: the value "UV-123 " (trailing blank) begins with
its category's UV prefix, yet normalization returns the trimmed "UV-123",
which differs from the input — literal idempotence fails on untrimmed
values. -/
theorem C5_counterexample :
    rename_sku [("Item", "UV-123 "), ("__ORDER_TYPE", "UV")] = "UV-123" ∧
      strStartsWith (pyUpperStr "UV-123 ") "UV-" = true ∧
      ("UV-123" : String) ≠ "UV-123 " := by decide

/-- C5 (amended): prefixing is idempotent on trimmed values: for every
value `v` without surrounding whitespace that already begins with the
prefix token of its assigned category (compared case-insensitively),
normalizing `v` under that category returns `v` unchanged. -/
theorem C5_amended_idempotent_on_trimmed (v otype tok : String)
    (hcat : (otype = "UV" ∧ tok = "UV-") ∨ (otype = "LASER" ∧ tok = "L-"))
    (hs : pyStripStr v = v)
    (hp : strStartsWith (pyUpperStr v) (pyUpperStr tok) = true) :
    rename_sku [("Item", v), ("__ORDER_TYPE", otype)] = v := by
  obtain ⟨rfl, rfl⟩ | ⟨rfl, rfl⟩ := hcat
  · have hb : rename_sku [("Item", v), ("__ORDER_TYPE", "UV")]
        = dedupe_prefix v "UV-" := rfl
    rw [hb]
    simp only [ dedupe_prefix]
    rw [hs]
    by_cases hv : (v == "") = true
    · rw [if_pos hv]
    · rw [if_neg hv, if_pos hp]
  · have hb : rename_sku [("Item", v), ("__ORDER_TYPE", "LASER")]
        = dedupe_prefix v "L-" := rfl
    rw [hb]
    simp only [ dedupe_prefix]
    rw [hs]
    by_cases hv : (v == "") = true
    · rw [if_pos hv]
    · rw [if_neg hv, if_pos hp]

/-- C5 witness: the already-prefixed (lower-case) value "uv-ALREADY" is
returned unchanged under the UV category. -/
theorem C5_amended_idempotent_on_trimmed_witness :
    rename_sku [("Item", "uv-ALREADY"), ("__ORDER_TYPE", "UV")] = "uv-ALREADY" :=
  C5_amended_idempotent_on_trimmed "uv-ALREADY" "UV" "UV-"
    (Or.inl ⟨rfl, rfl⟩) (by decide) (by decide)

/-- C6 counterexample: a LASER order whose identifier already begins with
the UV prefix token is not left unchanged: it receives an additional L-
prefix ("UV-123" becomes "L-UV-123"). -/
theorem C6_counterexample :
    rename_sku [("Item", "UV-123"), ("__ORDER_TYPE", "LASER")] = "L-UV-123" ∧
      strStartsWith (pyUpperStr "UV-123") "UV-" = true ∧
      ("L-UV-123" : String) ≠ "UV-123" := by decide

/-- C6 (amended): for a LASER order the L- prefix is prepended to the
trimmed identifier unless the value already begins with the LASER prefix
token itself (case-insensitively); only the LASER token is checked, so a
value starting with the UV prefix still receives an L- prefix. -/
theorem C6_amended_only_laser_token_checked (v : String)
    (hs : pyStripStr v = v) (hne : v ≠ "") :
    rename_sku [("Item", v), ("__ORDER_TYPE", "LASER")] =
      if strStartsWith (pyUpperStr v) (pyUpperStr "L-") then v
      else "L-" ++ v := by
  have hb : rename_sku [("Item", v), ("__ORDER_TYPE", "LASER")]
      = dedupe_prefix v "L-" := rfl
  rw [hb]
  simp only [ dedupe_prefix]
  rw [hs]
  rw [if_neg (by simpa using hne)]

/-- C6 witness: the UV-prefixed value "UV-123" under LASER falls into the
else branch and gains an L- prefix. -/
theorem C6_amended_only_laser_token_checked_witness :
    rename_sku [("Item", "UV-123"), ("__ORDER_TYPE", "LASER")] =
      if strStartsWith (pyUpperStr "UV-123") (pyUpperStr "L-") then "UV-123"
      else "L-" ++ "UV-123" :=
  C6_amended_only_laser_token_checked "UV-123" (by decide) (by decide)

/-- C7 counterexample: a BLANK order whose raw identifier already begins
with the UV prefix token keeps it: the output identifier "UV-123" still
carries the UV prefix, violating the no-blank-prefix invariant. -/
theorem C7_counterexample :
    rename_sku [("Item", "UV-123"), ("__ORDER_TYPE", "BLANK")] = "UV-123" ∧
      strStartsWith (pyUpperStr "UV-123") "UV-" = true := by decide

/-- C7 (amended): for a BLANK order the identifier is passed through
completely unchanged (not even trimmed); in particular a prefix token
already present in the raw input is retained, not stripped. -/
theorem C7_amended_blank_passthrough (r : Row) (v : String)
    (hv : rget r "Item" = some v)
    (ht : pyUpperStr (rgetD r "__ORDER_TYPE" "") = "BLANK") :
    rename_sku r = v := by
  simp only [rename_sku]
  rw [ht, if_neg (by decide), if_neg (by decide)]
  unfold rgetD
  rw [hv]
  rfl

/-- C7 witness: the BLANK order with raw identifier "UV-123" emits
exactly "UV-123". -/
theorem C7_amended_blank_passthrough_witness :
    rename_sku [("Item", "UV-123"), ("__ORDER_TYPE", "BLANK")] = "UV-123" :=
  C7_amended_blank_passthrough [("Item", "UV-123"), ("__ORDER_TYPE", "BLANK")]
    "UV-123" (by decide) (by decide)

